import Mathlib

/-!
Verification development for the esp-wifi-connect repository.

The definitions below are shallow embeddings of the C++ sources:
  - `managerApply` embeds the mode-arbitration bodies of
    `WifiManager::StartStation` / `StopStation` / `StartConfigAp` /
    `StopConfigAp` (src/wifi_manager.cc), acting on the two mode flags
    `station_active_` / `config_mode_active_` guarded by `initialized_`.
  - `stationStep` embeds the event handlers of `WifiStation`
    (src/wifi_station.cc): `WifiEventHandler` (STA_START, SCAN_DONE,
    STA_DISCONNECTED) and `IpEventHandler` (IP_EVENT_STA_GOT_IP), with
    `HandleScanResult`, `StartConnect` and `UpdateScanInterval` as separate
    definitions mirroring the corresponding member functions. Calls into
    the radio driver and user callbacks are modelled as an output list.
  - `dnsRespond` embeds the in-place buffer patching of `DnsServer::Run`
    (src/dns_server.cc); `dnsRespondChecked` adds the fixed 512-byte
    receive-buffer bound, returning none when the 16-byte append would
    write past the array. `dnsStart` / `dnsStop` embed
    `DnsServer::Start` / `DnsServer::Stop` with socket/task effects
    modelled as an effect list.
  - `connectToWifi` embeds `WifiConfigurationAp::ConnectToWifi`
    (src/wifi_configuration_ap.cc) with the driver's connect result and
    the event-group wait outcome supplied as parameters.
-/

/-! Section: Connectivity orchestrator (src/wifi_manager.cc). -/

/-- Public events of wifi_manager.h (enum class WifiEvent). -/
inductive WifiEvent where
  | Scanning
  | Connecting
  | Connected
  | Disconnected
  | ConfigModeEnter
  | ConfigModeExit
deriving Repr, DecidableEq

/-- Mode flags of WifiManager (initialized_, station_active_, config_mode_active_). -/
structure ManagerState where
  initialized : Bool
  stationActive : Bool
  configModeActive : Bool
deriving Repr, DecidableEq

/-- The four mode-transition operations of WifiManager. -/
inductive ManagerOp where
  | startStation
  | stopStation
  | startConfigAp
  | stopConfigAp
deriving Repr, DecidableEq

/-- Embeds the bodies of WifiManager::StartStation, StopStation, StartConfigAp,
StopConfigAp (src/wifi_manager.cc lines 111-173 and 222-277): flag updates in
source order plus the WifiEvent values emitted by the call. -/
def managerApply (s : ManagerState) : ManagerOp → ManagerState × List WifiEvent
  | ManagerOp.startStation =>
    if !s.initialized then (s, [])
    else if s.stationActive then (s, [])
    else
      -- auto-stop config AP if active, then start the station
      let p := if s.configModeActive then
          ({ s with configModeActive := false }, [WifiEvent.ConfigModeExit])
        else (s, [])
      ({ p.1 with stationActive := true }, p.2)
  | ManagerOp.stopStation =>
    if !s.stationActive then (s, [])
    else ({ s with stationActive := false }, [WifiEvent.Disconnected])
  | ManagerOp.startConfigAp =>
    if !s.initialized then (s, [])
    else if s.configModeActive then (s, [])
    else
      -- auto-stop station if active, then start the config AP
      let p := if s.stationActive then
          ({ s with stationActive := false }, [WifiEvent.Disconnected])
        else (s, [])
      ({ p.1 with configModeActive := true }, p.2 ++ [WifiEvent.ConfigModeEnter])
  | ManagerOp.stopConfigAp =>
    if !s.configModeActive then (s, [])
    else ({ s with configModeActive := false }, [WifiEvent.ConfigModeExit])

/-- Runs a sequence of WifiManager operations, keeping the settled state. -/
def managerRun (s : ManagerState) : List ManagerOp → ManagerState
  | [] => s
  | op :: ops => managerRun (managerApply s op).1 ops

/-- State of the manager right after a successful Initialize. -/
def managerInit : ManagerState :=
  { initialized := true, stationActive := false, configModeActive := false }

lemma managerApply_exclusive (s : ManagerState) (op : ManagerOp)
    (h : (s.stationActive && s.configModeActive) = false) :
    ((managerApply s op).1.stationActive && (managerApply s op).1.configModeActive) = false := by
  cases op <;> simp only [managerApply] <;>
    rcases s with ⟨i, st, cf⟩ <;> cases i <;> cases st <;> cases cf <;> simp_all

lemma managerRun_exclusive (ops : List ManagerOp) :
    ∀ s : ManagerState, (s.stationActive && s.configModeActive) = false →
      ((managerRun s ops).stationActive && (managerRun s ops).configModeActive) = false := by
  induction ops with
  | nil => intro s h; simpa [managerRun] using h
  | cons op ops ih =>
    intro s h
    rw [managerRun]
    exact ih _ (managerApply_exclusive s op h)

/-- C1: for every sequence of StartStation/StartConfigAp/StopStation/StopConfigAp
calls, after each call settles (i.e. after every prefix of the sequence) at most
one of the two mode flags station_active_ / config_mode_active_ is true, provided
it was so initially (as in the state right after Initialize): starting one mode
first clears the opposite flag before setting its own. -/
theorem wifi_manager_mode_exclusive (s : ManagerState) (ops : List ManagerOp) (k : Nat)
    (h : (s.stationActive && s.configModeActive) = false) :
    ((managerRun s (ops.take k)).stationActive
      && (managerRun s (ops.take k)).configModeActive) = false :=
  managerRun_exclusive (ops.take k) s h

/-- C1 witness: concrete run starting station then config AP from the initialized
state keeps the two mode flags mutually exclusive at the checked prefix. -/
theorem wifi_manager_mode_exclusive_witness :
    (managerInit.stationActive && managerInit.configModeActive) = false ∧
    ((managerRun managerInit ([ManagerOp.startStation, ManagerOp.startConfigAp].take 2)).stationActive
      && (managerRun managerInit
            ([ManagerOp.startStation, ManagerOp.startConfigAp].take 2)).configModeActive) = false :=
  ⟨by decide, wifi_manager_mode_exclusive managerInit
      [ManagerOp.startStation, ManagerOp.startConfigAp] 2 (by decide)⟩

/-! Section: Captive-portal DNS responder, datagram transformation
(src/dns_server.cc, DnsServer::Run lines 93-104). -/

/-- The 12 fixed bytes the responder appends before the 4-byte address:
the name pointer c0 0c and then type, class, TTL, data length. -/
def dnsAnswerFixed : List Nat :=
  [0xc0, 0x0c, 0x00, 0x01, 0x00, 0x01, 0x00, 0x00, 0x00, 0x1c, 0x00, 0x04]

/-- Bytes appended to the query by DnsServer::Run: the fixed 12 bytes followed
by the 4 bytes of the configured gateway address. -/
def dnsAnswerSuffix (gateway : List Nat) : List Nat :=
  dnsAnswerFixed ++ gateway

/-- Embeds the response construction of DnsServer::Run on a received datagram:
byte 2 gets the response flag OR-ed in, byte 3 the recursion-available flag,
byte 7 is set to 1 (answer count), and the 16-byte answer section is appended. -/
def dnsRespond (gateway : List Nat) (buffer : List Nat) : List Nat :=
  let b1 := buffer.set 2 (Nat.lor (buffer.getD 2 0) 0x80)
  let b2 := b1.set 3 (Nat.lor (b1.getD 3 0) 0x80)
  let b3 := b2.set 7 1
  b3 ++ dnsAnswerSuffix gateway

/-- Embeds one response of DnsServer::Run including the storage bound: the
source patches and appends inside the fixed char buffer[512], writing the 16
appended bytes at indices len..len+15. When len + 16 exceeds 512, those memcpy
writes fall outside the array — out-of-bounds undefined behavior that can
corrupt the adjacent client_addr/client_addr_len locals used by sendto — so no
well-defined response exists and this model returns none. -/
def dnsRespondChecked (gateway buffer : List Nat) : Option (List Nat) :=
  if buffer.length + 16 ≤ 512 then some (dnsRespond gateway buffer) else none

/-- C6 counterexample: a 500-byte query satisfies the claim's bounds
(12 ≤ L ≤ 500) with a 4-byte gateway, yet the responder has no well-defined
response for it: appending 16 bytes at index 500 of the fixed 512-byte receive
buffer writes past the array (500 + 16 > 512), so the claimed response shape
does not hold at this input. -/
theorem dns_response_shape_counterexample :
    12 ≤ (List.replicate 500 (0 : Nat)).length ∧
    (List.replicate 500 (0 : Nat)).length ≤ 500 ∧
    ([192, 168, 4, 1] : List Nat).length = 4 ∧
    ¬ (List.replicate 500 (0 : Nat)).length + 16 ≤ 512 ∧
    dnsRespondChecked [192, 168, 4, 1] (List.replicate 500 0) = none := by
  refine ⟨?_, ?_, by decide, ?_, ?_⟩
  · rw [List.length_replicate]
    decide
  · rw [List.length_replicate]
  · rw [List.length_replicate]
    decide
  · unfold dnsRespondChecked
    rw [List.length_replicate, if_neg (by decide)]

/-- C6 amended: for every received DNS query datagram of length L with
12 ≤ L ≤ 496 — so that the 16 appended bytes stay within the fixed 512-byte
receive buffer — and a 4-byte gateway address, the response is well defined and
equals the input with byte 2 OR-ed with 0x80, byte 3 OR-ed with 0x80, byte 7
set to 1, all other input bytes unchanged, and exactly 16 bytes appended whose
bytes 12..15 are the gateway address. -/
theorem dns_response_shape_in_bounds (gateway buffer : List Nat)
    (hg : gateway.length = 4) (hlo : 12 ≤ buffer.length) (hhi : buffer.length ≤ 496) :
    dnsRespondChecked gateway buffer = some (dnsRespond gateway buffer) ∧
    (dnsRespond gateway buffer).length = buffer.length + 16 ∧
    (dnsRespond gateway buffer).getD 2 0 = Nat.lor (buffer.getD 2 0) 0x80 ∧
    (dnsRespond gateway buffer).getD 3 0 = Nat.lor (buffer.getD 3 0) 0x80 ∧
    (dnsRespond gateway buffer).getD 7 0 = 1 ∧
    (∀ i, i < buffer.length → i ≠ 2 → i ≠ 3 → i ≠ 7 →
      (dnsRespond gateway buffer).getD i 0 = buffer.getD i 0) ∧
    (dnsRespond gateway buffer).drop buffer.length = dnsAnswerSuffix gateway ∧
    (dnsRespond gateway buffer).drop (buffer.length + 12) = gateway := by
  have h2 : 2 < buffer.length := by omega
  have h3 : (3 : Nat) < (buffer.set 2 (Nat.lor (buffer.getD 2 0) 0x80)).length := by
    rw [List.length_set]; omega
  have h7 : (7 : Nat) <
      ((buffer.set 2 (Nat.lor (buffer.getD 2 0) 0x80)).set 3
        (Nat.lor ((buffer.set 2 (Nat.lor (buffer.getD 2 0) 0x80)).getD 3 0) 0x80)).length := by
    rw [List.length_set, List.length_set]; omega
  have hb3len :
      (((buffer.set 2 (Nat.lor (buffer.getD 2 0) 0x80)).set 3
          (Nat.lor ((buffer.set 2 (Nat.lor (buffer.getD 2 0) 0x80)).getD 3 0) 0x80)).set 7
            1).length = buffer.length := by
    rw [List.length_set, List.length_set, List.length_set]
  have hb1get3 : (buffer.set 2 (Nat.lor (buffer.getD 2 0) 0x80)).getD 3 0 = buffer.getD 3 0 := by
    rw [List.getD_eq_getElem?_getD, List.getElem?_set_ne (by omega),
        List.getD_eq_getElem?_getD]
  refine ⟨?_, ?_, ?_, ?_, ?_, ?_, ?_, ?_⟩
  · unfold dnsRespondChecked
    rw [if_pos (by omega)]
  · simp [dnsRespond, dnsAnswerSuffix, dnsAnswerFixed, hg]
  · rw [dnsRespond]
    rw [List.getD_eq_getElem?_getD,
        List.getElem?_append_left (by rw [hb3len]; omega),
        List.getElem?_set_ne (by omega), List.getElem?_set_ne (by omega),
        List.getElem?_set_self h2]
    rfl
  · rw [dnsRespond]
    rw [List.getD_eq_getElem?_getD,
        List.getElem?_append_left (by rw [hb3len]; omega),
        List.getElem?_set_ne (by omega), List.getElem?_set_self h3,
        hb1get3]
    rfl
  · rw [dnsRespond]
    rw [List.getD_eq_getElem?_getD,
        List.getElem?_append_left (by rw [hb3len]; omega),
        List.getElem?_set_self h7]
    rfl
  · intro i hi hne2 hne3 hne7
    rw [dnsRespond]
    rw [List.getD_eq_getElem?_getD,
        List.getElem?_append_left (by rw [hb3len]; omega),
        List.getElem?_set_ne (fun h => hne7 h.symm),
        List.getElem?_set_ne (fun h => hne3 h.symm),
        List.getElem?_set_ne (fun h => hne2 h.symm),
        List.getD_eq_getElem?_getD]
  · rw [dnsRespond]
    rw [show buffer.length =
          (((buffer.set 2 (Nat.lor (buffer.getD 2 0) 0x80)).set 3
              (Nat.lor ((buffer.set 2 (Nat.lor (buffer.getD 2 0) 0x80)).getD 3 0) 0x80)).set 7
                1).length from hb3len.symm,
        List.drop_left]
  · rw [show buffer.length + 12 = buffer.length + 12 from rfl, ← List.drop_drop]
    rw [dnsRespond]
    rw [show buffer.length =
          (((buffer.set 2 (Nat.lor (buffer.getD 2 0) 0x80)).set 3
              (Nat.lor ((buffer.set 2 (Nat.lor (buffer.getD 2 0) 0x80)).getD 3 0) 0x80)).set 7
                1).length from hb3len.symm,
        List.drop_left, dnsAnswerSuffix,
        show (12 : Nat) = dnsAnswerFixed.length from rfl, List.drop_left]

/-- C6 witness: the in-bounds response shape holds on a concrete 12-byte query
with the gateway 192.168.4.1. -/
theorem dns_response_shape_in_bounds_witness :
    ([192, 168, 4, 1] : List Nat).length = 4 ∧
    12 ≤ ([0, 1, 1, 0, 0, 1, 0, 0, 0, 0, 0, 0] : List Nat).length ∧
    ([0, 1, 1, 0, 0, 1, 0, 0, 0, 0, 0, 0] : List Nat).length ≤ 496 ∧
    dnsRespondChecked [192, 168, 4, 1] [0, 1, 1, 0, 0, 1, 0, 0, 0, 0, 0, 0]
      = some (dnsRespond [192, 168, 4, 1] [0, 1, 1, 0, 0, 1, 0, 0, 0, 0, 0, 0]) ∧
    (dnsRespond [192, 168, 4, 1] [0, 1, 1, 0, 0, 1, 0, 0, 0, 0, 0, 0]).length = 12 + 16 ∧
    (dnsRespond [192, 168, 4, 1] [0, 1, 1, 0, 0, 1, 0, 0, 0, 0, 0, 0]).drop (12 + 12)
      = [192, 168, 4, 1] := by
  have h := dns_response_shape_in_bounds [192, 168, 4, 1] [0, 1, 1, 0, 0, 1, 0, 0, 0, 0, 0, 0]
    (by decide) (by decide) (by decide)
  exact ⟨by decide, by decide, by decide, h.1, h.2.1, h.2.2.2.2.2.2.2⟩

/-! Section: Station connection state machine (src/wifi_station.cc). -/

/-- Credential entry of the external SsidManager (ssid_manager.h SsidItem). -/
structure SsidItem where
  ssid : String
  password : String
deriving Repr, DecidableEq

/-- Fields of wifi_ap_record_t consumed by HandleScanResult. -/
structure ScanRecord where
  ssid : String
  rssi : Int
  primary : Nat
  authmode : Nat
  bssid : List Nat
deriving Repr, DecidableEq

/-- Candidate entry stored in connect_queue_ (WifiApRecord in wifi_station.cc). -/
structure WifiApRecord where
  ssid : String
  password : String
  channel : Nat
  authmode : Nat
  bssid : List Nat
deriving Repr, DecidableEq

/-- State of one WifiStation: the three event-group bits, the was_connected_
flag, the reconnect counter, the candidate queue, the current target and
address, the three scan-interval fields, and one flag per registered callback
(whether the corresponding std::function is non-empty). -/
structure StationState where
  connected : Bool
  stoppedBit : Bool
  scanDoneBit : Bool
  wasConnected : Bool
  reconnectCount : Nat
  queue : List WifiApRecord
  ssid : String
  password : String
  ipAddress : String
  scanMinInterval : Int
  scanMaxInterval : Int
  scanCurrentInterval : Int
  hasOnScanBegin : Bool
  hasOnConnect : Bool
  hasOnConnected : Bool
  hasOnDisconnected : Bool
deriving Repr, DecidableEq

/-- Observable actions of the station machine: user callbacks invoked and
radio-driver / timer calls issued. -/
inductive StationOutput where
  | onScanBegin
  | onConnect (ssid : String)
  | onConnected (ssid : String)
  | onDisconnected
  | wifiScanStart
  | wifiSetConfig (ssid password : String)
  | wifiConnect
  | timerStartOnce (interval : Int)
deriving Repr, DecidableEq

/-- Driver events delivered to WifiEventHandler / IpEventHandler. -/
inductive StationEvent where
  | staStart
  | scanDone (results : List ScanRecord)
  | staConnected
  | staDisconnected
  | gotIp (ip : String)
deriving Repr, DecidableEq

/-- Insertion step of the descending-rssi ordering used on scan results. -/
def insertByRssi (r : ScanRecord) : List ScanRecord → List ScanRecord
  | [] => [r]
  | x :: xs => if r.rssi > x.rssi then r :: x :: xs else x :: insertByRssi r xs

/-- Embeds the sort of HandleScanResult (comparator a.rssi > b.rssi, descending).
The source uses an unstable sort, so tie order among equal rssi values is
unspecified there; this model fixes one order, and no theorem below depends on
the tie order. -/
def sortByRssiDesc : List ScanRecord → List ScanRecord
  | [] => []
  | x :: xs => insertByRssi x (sortByRssiDesc xs)

/-- Embeds the matching loop of HandleScanResult: walk the (sorted) scan records
in order, keep those whose ssid appears in the credential list, and build the
WifiApRecord from the matching credential entry plus the scanned channel,
authmode and bssid. -/
def buildCandidates (ssidList : List SsidItem) : List ScanRecord → List WifiApRecord
  | [] => []
  | r :: rs =>
    match ssidList.find? (fun item => r.ssid == item.ssid) with
    | some item =>
        { ssid := item.ssid, password := item.password, channel := r.primary,
          authmode := r.authmode, bssid := r.bssid } :: buildCandidates ssidList rs
    | none => buildCandidates ssidList rs

/-- Embeds WifiStation::UpdateScanInterval (src/wifi_station.cc lines 298-306):
double the current interval, capped at the maximum; no change once at or above
the maximum. -/
def updateScanInterval (s : StationState) : StationState :=
  if s.scanCurrentInterval < s.scanMaxInterval then
    if s.scanCurrentInterval * 2 > s.scanMaxInterval then
      { s with scanCurrentInterval := s.scanMaxInterval }
    else
      { s with scanCurrentInterval := s.scanCurrentInterval * 2 }
  else s

/-- Embeds WifiStation::StartConnect (src/wifi_station.cc lines 210-234): pop the
front of connect_queue_, remember its ssid/password, invoke on_connect_ if set,
push the config to the driver, zero the reconnect counter and issue a connect.
The source only calls this with a non-empty queue; on an empty queue this model
is the identity. -/
def startConnect (s : StationState) : StationState × List StationOutput :=
  match s.queue with
  | [] => (s, [])
  | r :: rest =>
    ({ s with queue := rest, ssid := r.ssid, password := r.password, reconnectCount := 0 },
      (if s.hasOnConnect then [StationOutput.onConnect r.ssid] else [])
        ++ [StationOutput.wifiSetConfig r.ssid r.password, StationOutput.wifiConnect])

/-- Embeds WifiStation::HandleScanResult (src/wifi_station.cc lines 164-208):
append the credential-matched, rssi-sorted scan results to connect_queue_; if the
queue is still empty, arm the rescan timer with the current interval and then
apply the backoff update; otherwise start connecting to the front candidate. -/
def handleScanResult (ssidList : List SsidItem) (s : StationState)
    (results : List ScanRecord) : StationState × List StationOutput :=
  let s1 := { s with queue := s.queue ++ buildCandidates ssidList (sortByRssiDesc results) }
  if s1.queue.isEmpty then
    (updateScanInterval s1, [StationOutput.timerStartOnce s1.scanCurrentInterval])
  else
    startConnect s1

/-- Embeds the driver-event dispatch of WifiStation::WifiEventHandler
(src/wifi_station.cc lines 309-348) and WifiStation::IpEventHandler (lines
350-369). MAX_RECONNECT_COUNT is 5. -/
def stationStep (ssidList : List SsidItem) (s : StationState) :
    StationEvent → StationState × List StationOutput
  | StationEvent.staStart =>
      (s, StationOutput.wifiScanStart
            :: (if s.hasOnScanBegin then [StationOutput.onScanBegin] else []))
  | StationEvent.scanDone results =>
      handleScanResult ssidList { s with scanDoneBit := true } results
  | StationEvent.staConnected => (s, [])
  | StationEvent.staDisconnected =>
      let fired := s.wasConnected
      let s1 := { s with connected := false, wasConnected := false }
      let outs := if fired && s.hasOnDisconnected then [StationOutput.onDisconnected] else []
      if s1.reconnectCount < 5 then
        ({ s1 with reconnectCount := s1.reconnectCount + 1 }, outs ++ [StationOutput.wifiConnect])
      else if !s1.queue.isEmpty then
        ((startConnect s1).1, outs ++ (startConnect s1).2)
      else
        (updateScanInterval s1, outs ++ [StationOutput.timerStartOnce s1.scanCurrentInterval])
  | StationEvent.gotIp ip =>
      ({ s with
          ipAddress := ip, connected := true, wasConnected := true,
          queue := [], reconnectCount := 0, scanCurrentInterval := s.scanMinInterval },
        if s.hasOnConnected then [StationOutput.onConnected s.ssid] else [])

/-- Embeds WifiStation::Stop (src/wifi_station.cc lines 58-97) on the modelled
state: reset was_connected_, clear the CONNECTED bit, set the STOPPED bit. -/
def stationStop (s : StationState) : StationState :=
  { s with wasConnected := false, connected := false, stoppedBit := true }

/-- Embeds the bit handling of WifiStation::Start (src/wifi_station.cc line 121):
clear the STOPPED and SCAN_DONE bits. -/
def stationStart (s : StationState) : StationState :=
  { s with stoppedBit := false, scanDoneBit := false }

/-- Folds a sequence of driver events through stationStep, keeping the state. -/
def stationRun (ssidList : List SsidItem) (s : StationState) : List StationEvent → StationState
  | [] => s
  | e :: es => stationRun ssidList (stationStep ssidList s e).1 es

/-- Folds a sequence of driver events through stationStep, concatenating the
emitted outputs. -/
def stationRunOuts (ssidList : List SsidItem) (s : StationState) :
    List StationEvent → List StationOutput
  | [] => []
  | e :: es => (stationStep ssidList s e).2 ++ stationRunOuts ssidList (stationStep ssidList s e).1 es

/-- Number of invocations of the Disconnected callback in an output list. -/
def countDisconnects : List StationOutput → Nat
  | [] => 0
  | StationOutput.onDisconnected :: rest => countDisconnects rest + 1
  | _ :: rest => countDisconnects rest

/-- Number of esp_wifi_connect calls in an output list. -/
def countConnectCalls : List StationOutput → Nat
  | [] => 0
  | StationOutput.wifiConnect :: rest => countConnectCalls rest + 1
  | _ :: rest => countConnectCalls rest

/-- Specification-side count of Connected-to-Disconnected transitions in an
event sequence: a got-IP event marks the connection as established, and a
disconnect event while established counts once and clears the mark. -/
def connTransitions (b : Bool) : List StationEvent → Nat
  | [] => 0
  | StationEvent.gotIp _ :: es => connTransitions true es
  | StationEvent.staDisconnected :: es => (if b then 1 else 0) + connTransitions false es
  | _ :: es => connTransitions b es

/-- Recognizer for got-IP events. -/
def isGotIp : StationEvent → Bool
  | StationEvent.gotIp _ => true
  | _ => false

/-- Station state as left by the WifiStation constructor plus
SetScanIntervalRange with the default WifiManagerConfig (10 s / 300 s), with all
four callbacks registered as WifiManager::StartStation does. -/
def initialStation : StationState :=
  { connected := false, stoppedBit := false, scanDoneBit := false, wasConnected := false,
    reconnectCount := 0, queue := [], ssid := "", password := "", ipAddress := "",
    scanMinInterval := 10000000, scanMaxInterval := 300000000,
    scanCurrentInterval := 10000000,
    hasOnScanBegin := true, hasOnConnect := true, hasOnConnected := true,
    hasOnDisconnected := true }

lemma countDisconnects_append (a b : List StationOutput) :
    countDisconnects (a ++ b) = countDisconnects a + countDisconnects b := by
  induction a with
  | nil => simp [countDisconnects]
  | cons x xs ih => cases x <;> simp [countDisconnects, ih] <;> omega

lemma sc_wasConnected (s : StationState) :
    (startConnect s).1.wasConnected = s.wasConnected := by
  cases hq : s.queue <;> simp [startConnect, hq]

lemma sc_hasOnDisconnected (s : StationState) :
    (startConnect s).1.hasOnDisconnected = s.hasOnDisconnected := by
  cases hq : s.queue <;> simp [startConnect, hq]

lemma sc_countD (s : StationState) :
    countDisconnects (startConnect s).2 = 0 := by
  cases hq : s.queue with
  | nil => simp [startConnect, hq, countDisconnects]
  | cons r rest =>
    by_cases hc : s.hasOnConnect <;> simp [startConnect, hq, hc, countDisconnects]

lemma usi_wasConnected (s : StationState) :
    (updateScanInterval s).wasConnected = s.wasConnected := by
  unfold updateScanInterval; split_ifs <;> rfl

lemma usi_hasOnDisconnected (s : StationState) :
    (updateScanInterval s).hasOnDisconnected = s.hasOnDisconnected := by
  unfold updateScanInterval; split_ifs <;> rfl

lemma usi_reconnectCount (s : StationState) :
    (updateScanInterval s).reconnectCount = s.reconnectCount := by
  unfold updateScanInterval; split_ifs <;> rfl

lemma usi_queue (s : StationState) :
    (updateScanInterval s).queue = s.queue := by
  unfold updateScanInterval; split_ifs <;> rfl

lemma usi_ssid (s : StationState) :
    (updateScanInterval s).ssid = s.ssid := by
  unfold updateScanInterval; split_ifs <;> rfl

lemma handleScanResult_char (L : List SsidItem) (s : StationState) (rs : List ScanRecord) :
    countDisconnects (handleScanResult L s rs).2 = 0 ∧
    (handleScanResult L s rs).1.wasConnected = s.wasConnected ∧
    (handleScanResult L s rs).1.hasOnDisconnected = s.hasOnDisconnected := by
  simp only [handleScanResult]
  split_ifs with h
  · exact ⟨by simp [countDisconnects], usi_wasConnected _, usi_hasOnDisconnected _⟩
  · exact ⟨sc_countD _, sc_wasConnected _, sc_hasOnDisconnected _⟩

lemma stepFireChar (L : List SsidItem) (s : StationState) (e : StationEvent) :
    countDisconnects (stationStep L s e).2 =
      (match e with
        | StationEvent.staDisconnected =>
            if s.wasConnected && s.hasOnDisconnected then 1 else 0
        | _ => 0) ∧
    (stationStep L s e).1.wasConnected =
      (match e with
        | StationEvent.staDisconnected => false
        | StationEvent.gotIp _ => true
        | _ => s.wasConnected) ∧
    (stationStep L s e).1.hasOnDisconnected = s.hasOnDisconnected := by
  cases e with
  | staStart =>
    by_cases hb : s.hasOnScanBegin <;> simp [stationStep, hb, countDisconnects]
  | scanDone rs =>
    have h := handleScanResult_char L { s with scanDoneBit := true } rs
    exact ⟨h.1, h.2.1, h.2.2⟩
  | staConnected => simp [stationStep, countDisconnects]
  | staDisconnected =>
    refine ⟨?_, ?_, ?_⟩
    · simp only [stationStep]
      split_ifs <;>
        simp_all [countDisconnects_append, countDisconnects, sc_countD]
    · simp only [stationStep]
      split_ifs <;> simp_all [sc_wasConnected, usi_wasConnected]
    · simp only [stationStep]
      split_ifs <;> simp_all [sc_hasOnDisconnected, usi_hasOnDisconnected]
  | gotIp ip =>
    by_cases hc : s.hasOnConnected <;> simp [stationStep, hc, countDisconnects]

lemma fireCount_eq (L : List SsidItem) (evs : List StationEvent) :
    ∀ s : StationState, s.hasOnDisconnected = true →
      countDisconnects (stationRunOuts L s evs) = connTransitions s.wasConnected evs := by
  induction evs with
  | nil => intro s _; simp [stationRunOuts, connTransitions, countDisconnects]
  | cons e es ih =>
    intro s h
    obtain ⟨h1, h2, h3⟩ := stepFireChar L s e
    rw [stationRunOuts, countDisconnects_append, h1, ih _ (by rw [h3]; exact h), h2]
    cases e <;> simp [connTransitions, h]

/-- C5: for every sequence of driver events delivered to the station machine with
the Disconnected callback registered, the callback is invoked exactly as many
times as there are Connected-to-Disconnected transitions in the sequence: it
fires on a disconnect event exactly when a got-IP event established a connection
since the last firing, and never on repeated disconnect events while already
disconnected. -/
theorem station_disconnect_edge_triggered (L : List SsidItem) (s : StationState)
    (evs : List StationEvent) (hcb : s.hasOnDisconnected = true) :
    countDisconnects (stationRunOuts L s evs) = connTransitions s.wasConnected evs :=
  fireCount_eq L evs s hcb

/-- C5 witness: on a concrete trace with two connection cycles and a repeated
disconnect, the callback fires exactly twice. -/
theorem station_disconnect_edge_triggered_witness :
    initialStation.hasOnDisconnected = true ∧
    countDisconnects (stationRunOuts [] initialStation
        [StationEvent.gotIp "a", StationEvent.staDisconnected, StationEvent.staDisconnected,
          StationEvent.gotIp "b", StationEvent.staDisconnected])
      = connTransitions initialStation.wasConnected
        [StationEvent.gotIp "a", StationEvent.staDisconnected, StationEvent.staDisconnected,
          StationEvent.gotIp "b", StationEvent.staDisconnected] :=
  ⟨by decide, station_disconnect_edge_triggered [] initialStation
      [StationEvent.gotIp "a", StationEvent.staDisconnected, StationEvent.staDisconnected,
        StationEvent.gotIp "b", StationEvent.staDisconnected] (by decide)⟩

lemma noGotIp_run (L : List SsidItem) (evs : List StationEvent) :
    ∀ s : StationState, s.wasConnected = false →
      evs.all (fun e => !isGotIp e) = true →
      countDisconnects (stationRunOuts L s evs) = 0 ∧
      (stationRun L s evs).wasConnected = false := by
  induction evs with
  | nil =>
    intro s h _
    exact ⟨by simp [stationRunOuts, countDisconnects], by simpa [stationRun] using h⟩
  | cons e es ih =>
    intro s h hall
    have hall2 : (!isGotIp e) = true ∧ es.all (fun x => !isGotIp x) = true := by
      simpa [List.all_cons] using hall
    obtain ⟨h1, h2, _⟩ := stepFireChar L s e
    have hw : (stationStep L s e).1.wasConnected = false := by
      cases e with
      | gotIp ip => simp [isGotIp] at hall2
      | staDisconnected => exact h2
      | staStart => rw [h2]; exact h
      | scanDone rs => rw [h2]; exact h
      | staConnected => rw [h2]; exact h
    have hc : countDisconnects (stationStep L s e).2 = 0 := by
      cases e <;> simp [h] at h1 <;> exact h1
    have hrest := ih (stationStep L s e).1 hw hall2.2
    exact ⟨by rw [stationRunOuts, countDisconnects_append, hc, hrest.1],
      by rw [stationRun]; exact hrest.2⟩

/-- C10: WifiStation::Stop resets the was_connected_ flag and clears the
Connected bit, so after a Stop/Start cycle, any sequence of driver events of the
new session that contains no got-IP event never invokes the Disconnected
callback: no stale connected state crosses sessions. -/
theorem station_stop_resets_session (L : List SsidItem) (s : StationState)
    (evs : List StationEvent) (h : evs.all (fun e => !isGotIp e) = true) :
    (stationStop s).wasConnected = false ∧
    (stationStop s).connected = false ∧
    countDisconnects (stationRunOuts L (stationStart (stationStop s)) evs) = 0 :=
  ⟨rfl, rfl, (noGotIp_run L evs (stationStart (stationStop s)) rfl h).1⟩

/-- C10 witness: after stopping a connected session and restarting, two
immediate disconnect events fire no Disconnected callback. -/
theorem station_stop_resets_session_witness :
    ([StationEvent.staDisconnected, StationEvent.staDisconnected].all
        (fun e => !isGotIp e) = true) ∧
    countDisconnects (stationRunOuts []
        (stationStart (stationStop
          { initialStation with wasConnected := true, connected := true }))
        [StationEvent.staDisconnected, StationEvent.staDisconnected]) = 0 :=
  ⟨by decide, (station_stop_resets_session []
      { initialStation with wasConnected := true, connected := true }
      [StationEvent.staDisconnected, StationEvent.staDisconnected] (by decide)).2.2⟩

lemma startConnect_count_le (t : StationState) (h : t.reconnectCount ≤ 5) :
    (startConnect t).1.reconnectCount ≤ 5 := by
  cases hq : t.queue with
  | nil => simpa [startConnect, hq] using h
  | cons a as => simp [startConnect, hq]

lemma stepDisc_lt (L : List SsidItem) (s : StationState) (h : s.reconnectCount < 5) :
    (stationStep L s StationEvent.staDisconnected).1.reconnectCount = s.reconnectCount + 1 ∧
    (stationStep L s StationEvent.staDisconnected).1.ssid = s.ssid ∧
    StationOutput.wifiConnect ∈ (stationStep L s StationEvent.staDisconnected).2 := by
  refine ⟨?_, ?_, ?_⟩ <;> simp [stationStep, h]

lemma stepDisc_ge_cons (L : List SsidItem) (s : StationState) (r : WifiApRecord)
    (rest : List WifiApRecord) (h : ¬ s.reconnectCount < 5) (hq : s.queue = r :: rest) :
    (stationStep L s StationEvent.staDisconnected).1.ssid = r.ssid ∧
    (stationStep L s StationEvent.staDisconnected).1.reconnectCount = 0 := by
  refine ⟨?_, ?_⟩ <;> simp [stationStep, h, hq, startConnect]

lemma stepDisc_ge_nil (L : List SsidItem) (s : StationState)
    (h : ¬ s.reconnectCount < 5) (hq : s.queue = []) :
    (stationStep L s StationEvent.staDisconnected).1.scanCurrentInterval
        = (updateScanInterval { s with
            connected := false, wasConnected := false, queue := s.queue }).scanCurrentInterval ∧
    (stationStep L s StationEvent.staDisconnected).1.reconnectCount = s.reconnectCount ∧
    StationOutput.timerStartOnce s.scanCurrentInterval
        ∈ (stationStep L s StationEvent.staDisconnected).2 := by
  refine ⟨?_, ?_, ?_⟩ <;> simp [stationStep, h, hq, usi_reconnectCount]

lemma updateScanInterval_min (s : StationState)
    (h0 : 0 ≤ s.scanCurrentInterval) (h1 : s.scanCurrentInterval ≤ s.scanMaxInterval) :
    (updateScanInterval s).scanCurrentInterval
      = min (s.scanCurrentInterval * 2) s.scanMaxInterval := by
  unfold updateScanInterval
  split_ifs with hlt hgt
  · exact (min_eq_right (le_of_lt hgt)).symm
  · exact (min_eq_left (not_lt.mp hgt)).symm
  · have heq : s.scanCurrentInterval = s.scanMaxInterval :=
      le_antisymm h1 (not_lt.mp hlt)
    rw [min_eq_right (by omega)]
    omega

/-- C2: under the range invariant 0 ≤ current ≤ max, every failed full scan cycle
(scan done yielding an empty candidate queue, or a disconnect with the retry
bound reached and the queue exhausted) updates the scan interval to
min(current * 2, max), and every got-IP event resets it to the configured
minimum. -/
theorem scan_backoff_and_reset (L : List SsidItem) (s : StationState)
    (results : List ScanRecord) (ip : String)
    (h0 : 0 ≤ s.scanCurrentInterval) (h1 : s.scanCurrentInterval ≤ s.scanMaxInterval) :
    ((updateScanInterval s).scanCurrentInterval
        = min (s.scanCurrentInterval * 2) s.scanMaxInterval) ∧
    (s.queue = [] → buildCandidates L (sortByRssiDesc results) = [] →
      (stationStep L s (StationEvent.scanDone results)).1.scanCurrentInterval
        = min (s.scanCurrentInterval * 2) s.scanMaxInterval) ∧
    (¬ s.reconnectCount < 5 → s.queue = [] →
      (stationStep L s StationEvent.staDisconnected).1.scanCurrentInterval
        = min (s.scanCurrentInterval * 2) s.scanMaxInterval) ∧
    (stationStep L s (StationEvent.gotIp ip)).1.scanCurrentInterval = s.scanMinInterval := by
  refine ⟨updateScanInterval_min s h0 h1, ?_, ?_, rfl⟩
  · intro hq hb
    simp only [stationStep, handleScanResult, hq, hb, List.append_nil, List.isEmpty_nil,
      if_true]
    exact updateScanInterval_min _ h0 h1
  · intro h5 hq
    rw [(stepDisc_ge_nil L s h5 hq).1]
    exact updateScanInterval_min _ h0 h1

/-- C2 witness: with current 20 s and max 300 s (in microseconds), a failed
cycle doubles the interval, and a got-IP event resets it to the minimum. -/
theorem scan_backoff_and_reset_witness :
    (0 : Int) ≤ ({ initialStation with scanCurrentInterval := 20000000 } :
        StationState).scanCurrentInterval ∧
    (updateScanInterval { initialStation with scanCurrentInterval := 20000000 }).scanCurrentInterval
      = min ((20000000 : Int) * 2) 300000000 ∧
    (stationStep [] { initialStation with scanCurrentInterval := 20000000 }
        (StationEvent.gotIp "ip")).1.scanCurrentInterval
      = ({ initialStation with scanCurrentInterval := 20000000 } :
          StationState).scanMinInterval :=
  ⟨by decide,
    (scan_backoff_and_reset [] { initialStation with scanCurrentInterval := 20000000 }
      [] "ip" (by decide) (by decide)).1,
    (scan_backoff_and_reset [] { initialStation with scanCurrentInterval := 20000000 }
      [] "ip" (by decide) (by decide)).2.2.2⟩

/-- C3: the per-candidate reconnect discipline of the station machine. Popping a
candidate starts its reconnect counter at 0; the counter never exceeds 5
(MAX_RECONNECT_COUNT) across any event; a disconnect while the counter is below
5 issues one more same-candidate reconnect and increments the counter; once the
counter has reached 5, the next disconnect pops the next queued candidate
(counter back to 0) or, if the queue is empty, arms the rescan timer instead. -/
theorem reconnect_bound (L : List SsidItem) (s : StationState) (e : StationEvent)
    (r : WifiApRecord) (rest : List WifiApRecord) :
    (s.queue = r :: rest →
      (startConnect s).1.reconnectCount = 0 ∧ (startConnect s).1.ssid = r.ssid) ∧
    (s.reconnectCount ≤ 5 → (stationStep L s e).1.reconnectCount ≤ 5) ∧
    (s.reconnectCount < 5 →
      (stationStep L s StationEvent.staDisconnected).1.reconnectCount
          = s.reconnectCount + 1 ∧
      StationOutput.wifiConnect ∈ (stationStep L s StationEvent.staDisconnected).2 ∧
      (stationStep L s StationEvent.staDisconnected).1.ssid = s.ssid) ∧
    (¬ s.reconnectCount < 5 → s.queue = r :: rest →
      (stationStep L s StationEvent.staDisconnected).1.ssid = r.ssid ∧
      (stationStep L s StationEvent.staDisconnected).1.reconnectCount = 0) ∧
    (¬ s.reconnectCount < 5 → s.queue = [] →
      StationOutput.timerStartOnce s.scanCurrentInterval
        ∈ (stationStep L s StationEvent.staDisconnected).2) := by
  refine ⟨?_, ?_, ?_, ?_, ?_⟩
  · intro hq
    simp [startConnect, hq]
  · intro h5
    cases e with
    | staStart => exact h5
    | staConnected => exact h5
    | scanDone rs =>
      simp only [stationStep, handleScanResult]
      split_ifs with h
      · rw [usi_reconnectCount]; exact h5
      · exact startConnect_count_le _ h5
    | staDisconnected =>
      by_cases hlt : s.reconnectCount < 5
      · rw [(stepDisc_lt L s hlt).1]; omega
      · cases hq : s.queue with
        | nil => rw [(stepDisc_ge_nil L s hlt hq).2.1]; exact h5
        | cons a as => rw [(stepDisc_ge_cons L s a as hlt hq).2]; omega
    | gotIp ip => simp [stationStep]
  · intro hlt
    exact ⟨(stepDisc_lt L s hlt).1, (stepDisc_lt L s hlt).2.2, (stepDisc_lt L s hlt).2.1⟩
  · intro h5 hq
    exact stepDisc_ge_cons L s r rest h5 hq
  · intro h5 hq
    exact (stepDisc_ge_nil L s h5 hq).2.2

/-- C3 witness: with the counter at the bound 5 and one candidate still queued,
a disconnect advances to that candidate and resets the counter to 0. -/
theorem reconnect_bound_witness :
    (({ initialStation with
        reconnectCount := 5,
        queue := [{ ssid := "N", password := "pn", channel := 2, authmode := 3,
                    bssid := [9, 9, 9, 9, 9, 9] }] } : StationState).reconnectCount ≤ 5) ∧
    (stationStep [] { initialStation with
        reconnectCount := 5,
        queue := [{ ssid := "N", password := "pn", channel := 2, authmode := 3,
                    bssid := [9, 9, 9, 9, 9, 9] }] }
      StationEvent.staDisconnected).1.ssid = "N" ∧
    (stationStep [] { initialStation with
        reconnectCount := 5,
        queue := [{ ssid := "N", password := "pn", channel := 2, authmode := 3,
                    bssid := [9, 9, 9, 9, 9, 9] }] }
      StationEvent.staDisconnected).1.reconnectCount = 0 :=
  ⟨by decide,
    ((reconnect_bound [] { initialStation with
        reconnectCount := 5,
        queue := [{ ssid := "N", password := "pn", channel := 2, authmode := 3,
                    bssid := [9, 9, 9, 9, 9, 9] }] }
        StationEvent.staDisconnected
        { ssid := "N", password := "pn", channel := 2, authmode := 3,
          bssid := [9, 9, 9, 9, 9, 9] } []).2.2.2.1 (by decide) (by decide)).1,
    ((reconnect_bound [] { initialStation with
        reconnectCount := 5,
        queue := [{ ssid := "N", password := "pn", channel := 2, authmode := 3,
                    bssid := [9, 9, 9, 9, 9, 9] }] }
        StationEvent.staDisconnected
        { ssid := "N", password := "pn", channel := 2, authmode := 3,
          bssid := [9, 9, 9, 9, 9, 9] } []).2.2.2.1 (by decide) (by decide)).2⟩

/-- C8: on every got-IP event the station machine records the address, sets the
Connected bit and the was-connected mark, invokes the Connected callback (when
registered), clears the candidate queue, resets the reconnect counter to 0 and
resets the scan interval to its configured minimum. -/
theorem got_ip_postconditions (L : List SsidItem) (s : StationState) (ip : String)
    (h : s.hasOnConnected = true) :
    (stationStep L s (StationEvent.gotIp ip)).1.ipAddress = ip ∧
    (stationStep L s (StationEvent.gotIp ip)).1.connected = true ∧
    (stationStep L s (StationEvent.gotIp ip)).1.wasConnected = true ∧
    StationOutput.onConnected s.ssid ∈ (stationStep L s (StationEvent.gotIp ip)).2 ∧
    (stationStep L s (StationEvent.gotIp ip)).1.queue = [] ∧
    (stationStep L s (StationEvent.gotIp ip)).1.reconnectCount = 0 ∧
    (stationStep L s (StationEvent.gotIp ip)).1.scanCurrentInterval = s.scanMinInterval := by
  refine ⟨rfl, rfl, rfl, ?_, rfl, rfl, rfl⟩
  simp [stationStep, h]

/-- C8 witness: the got-IP postconditions hold at a concrete state with a live
candidate queue and a nonzero reconnect counter. -/
theorem got_ip_postconditions_witness :
    ({ initialStation with
        reconnectCount := 3, scanCurrentInterval := 80000000,
        ssid := "A" } : StationState).hasOnConnected = true ∧
    (stationStep [] { initialStation with
        reconnectCount := 3,
        scanCurrentInterval := 80000000, ssid := "A" }
      (StationEvent.gotIp "192.168.1.7")).1.ipAddress = "192.168.1.7" ∧
    (stationStep [] { initialStation with
        reconnectCount := 3,
        scanCurrentInterval := 80000000, ssid := "A" }
      (StationEvent.gotIp "192.168.1.7")).1.scanCurrentInterval
      = ({ initialStation with
        reconnectCount := 3, scanCurrentInterval := 80000000,
          ssid := "A" } : StationState).scanMinInterval :=
  ⟨by decide,
    (got_ip_postconditions [] { initialStation with
        reconnectCount := 3,
        scanCurrentInterval := 80000000, ssid := "A" } "192.168.1.7" (by decide)).1,
    (got_ip_postconditions [] { initialStation with
        reconnectCount := 3,
        scanCurrentInterval := 80000000, ssid := "A" } "192.168.1.7" (by decide)).2.2.2.2.2.2⟩

/-! Section: concrete scan-ranking and candidate-advance scenario. -/

/-- Scan record for network A at rssi -40. -/
def scanRecordA : ScanRecord :=
  { ssid := "A", rssi := -40, primary := 1, authmode := 3, bssid := [1, 2, 3, 4, 5, 6] }

/-- Scan record for network B at rssi -70. -/
def scanRecordB : ScanRecord :=
  { ssid := "B", rssi := -70, primary := 6, authmode := 3, bssid := [7, 8, 9, 10, 11, 12] }

/-- Stored credentials matching exactly A and B. -/
def knownList : List SsidItem :=
  [{ ssid := "A", password := "pa" }, { ssid := "B", password := "pb" }]

/-- Candidate built for A from the scan record and its credentials. -/
def candA : WifiApRecord :=
  { ssid := "A", password := "pa", channel := 1, authmode := 3, bssid := [1, 2, 3, 4, 5, 6] }

/-- Candidate built for B from the scan record and its credentials. -/
def candB : WifiApRecord :=
  { ssid := "B", password := "pb", channel := 6, authmode := 3, bssid := [7, 8, 9, 10, 11, 12] }

/-- Scan-done event reporting B then A (unsorted, as the driver may). -/
def scanEventAB : StationEvent := StationEvent.scanDone [scanRecordB, scanRecordA]

/-- C4 counterexample: the candidate queue built on scan-done is [A, B] as the
claim states, but after connecting to A has failed 5 times (five disconnect
events after the scan) the machine is still on candidate A — with the
reconnect counter at its bound and B still queued — and has not advanced to B,
so the claim as stated is false at this input. -/
theorem scan_rank_advance_counterexample :
    buildCandidates knownList (sortByRssiDesc [scanRecordB, scanRecordA]) = [candA, candB] ∧
    (stationRun knownList initialStation
        (scanEventAB :: List.replicate 5 StationEvent.staDisconnected)).ssid = "A" ∧
    (stationRun knownList initialStation
        (scanEventAB :: List.replicate 5 StationEvent.staDisconnected)).queue = [candB] ∧
    ¬ (stationRun knownList initialStation
        (scanEventAB :: List.replicate 5 StationEvent.staDisconnected)).ssid = "B" := by
  decide

/-- C4 amended: the candidate queue built on scan-done is [A, B] (descending
signal strength) and the machine first connects to A; connecting to A fails six
times in all — the initial attempt plus the 5 bounded reconnect attempts — and
on the sixth disconnect event the machine advances to candidate B (7 driver
connect calls in total: 6 for A, then 1 for B). -/
theorem scan_rank_advance_amended :
    buildCandidates knownList (sortByRssiDesc [scanRecordB, scanRecordA]) = [candA, candB] ∧
    (stationRun knownList initialStation [scanEventAB]).ssid = "A" ∧
    (stationRun knownList initialStation [scanEventAB]).queue = [candB] ∧
    (stationRun knownList initialStation
        (scanEventAB :: List.replicate 6 StationEvent.staDisconnected)).ssid = "B" ∧
    (stationRun knownList initialStation
        (scanEventAB :: List.replicate 6 StationEvent.staDisconnected)).reconnectCount = 0 ∧
    countConnectCalls (stationRunOuts knownList initialStation
        (scanEventAB :: List.replicate 6 StationEvent.staDisconnected)) = 7 := by
  decide

/-! Section: provisioning verifier (src/wifi_configuration_ap.cc,
WifiConfigurationAp::ConnectToWifi lines 437-481). -/

/-- Driver calls that ConnectToWifi can issue. -/
inductive ApDriverCall where
  | scanStop
  | setConfig (ssid password : List Nat)
  | connect
  | disconnect
deriving Repr, DecidableEq

/-- The parts of WifiConfigurationAp state that ConnectToWifi touches:
the is_connecting_ guard flag and the two event-group bits. -/
structure ApState where
  isConnecting : Bool
  connectedBit : Bool
  failBit : Bool
deriving Repr, DecidableEq

/-- Embeds WifiConfigurationAp::ConnectToWifi. SSIDs and passwords are byte
lists (std::string), so length is byte length. The return value of
esp_wifi_connect and the outcome of the 10 s event-group wait are supplied as
the parameters connectOk and waitConnectedBit. Returns the boolean result, the
settled state, and the driver calls issued. -/
def connectToWifi (s : ApState) (ssid password : List Nat)
    (connectOk waitConnectedBit : Bool) : Bool × ApState × List ApDriverCall :=
  if ssid.isEmpty then (false, s, [])
  else if ssid.length > 32 then (false, s, [])
  else
    let s1 : ApState := { isConnecting := true, connectedBit := false, failBit := false }
    let calls1 := [ApDriverCall.scanStop, ApDriverCall.setConfig ssid password,
      ApDriverCall.connect]
    if !connectOk then (false, { s1 with isConnecting := false }, calls1)
    else
      let s2 : ApState := { s1 with isConnecting := false }
      if waitConnectedBit then (true, s2, calls1 ++ [ApDriverCall.disconnect])
      else (false, s2, calls1)

/-- C7: for every call to ConnectToWifi with an empty SSID or an SSID longer
than 32 bytes, the call returns false synchronously, no driver call is issued,
and the state is untouched by the rejected call. -/
theorem connect_to_wifi_rejects_bad_ssid (s : ApState) (ssid password : List Nat)
    (connectOk waitConnectedBit : Bool)
    (h : ssid = [] ∨ ssid.length > 32) :
    connectToWifi s ssid password connectOk waitConnectedBit = (false, s, []) := by
  rcases h with h | h
  · simp [connectToWifi, h]
  · have hne : ¬ ssid.isEmpty = true := by
      cases ssid with
      | nil => simp at h
      | cons a as => simp
    simp [connectToWifi, hne, h]

/-- C7 witness: the empty SSID is rejected with no driver call and no state
change at a concrete state. -/
theorem connect_to_wifi_rejects_bad_ssid_witness :
    (([] : List Nat) = [] ∨ ([] : List Nat).length > 32) ∧
    connectToWifi { isConnecting := false, connectedBit := false, failBit := false }
      [] [120] true true
      = (false, { isConnecting := false, connectedBit := false, failBit := false }, []) :=
  ⟨Or.inl rfl,
    connect_to_wifi_rejects_bad_ssid
      { isConnecting := false, connectedBit := false, failBit := false }
      [] [120] true true (Or.inl rfl)⟩

/-! Section: DNS server lifecycle (src/dns_server.cc, DnsServer::Start lines
15-49 and DnsServer::Stop lines 51-72). -/

/-- Externally visible effects of DnsServer::Start / Stop: clearing the running
flag (which signals the receive task to exit), closing a socket, creating a
socket, binding it, and spawning the receive task. -/
inductive DnsEffect where
  | signalStop
  | closeFd (fd : Nat)
  | openSocket (fd : Nat)
  | bindPort (fd : Nat)
  | spawnTask
deriving Repr, DecidableEq

/-- State of one DnsServer: the running_ flag, the owned socket (none models
fd_ < 0), whether the receive task is live, a fresh-descriptor counter modelling
the kernel allocator, and the configured gateway bytes. -/
structure DnsState where
  running : Bool
  fd : Option Nat
  taskLive : Bool
  nextFd : Nat
  gateway : List Nat
deriving Repr, DecidableEq

/-- Embeds DnsServer::Stop: no-op unless running; otherwise clear running_
(signalling the receive loop), shut down and close the socket if one is open,
and wait out the receive task. -/
def dnsStop (s : DnsState) : DnsState × List DnsEffect :=
  if !s.running then (s, [])
  else
    match s.fd with
    | some n =>
        ({ s with running := false, fd := none, taskLive := false },
          [DnsEffect.signalStop, DnsEffect.closeFd n])
    | none =>
        ({ s with running := false, taskLive := false }, [DnsEffect.signalStop])

/-- Embeds DnsServer::Start: if already running, Stop first; then create the
socket (sockOk models the socket call succeeding), bind it (bindOk models bind
succeeding; on failure the socket is closed again and the server does not run),
and on success mark running and spawn the receive task. -/
def dnsStart (s : DnsState) (gw : List Nat) (sockOk bindOk : Bool) :
    DnsState × List DnsEffect :=
  let p := if s.running then dnsStop s else (s, [])
  let s1 := { p.1 with gateway := gw }
  if !sockOk then ({ s1 with fd := none }, p.2)
  else
    let f := s1.nextFd
    let s2 := { s1 with fd := some f, nextFd := f + 1 }
    if !bindOk then
      ({ s2 with fd := none }, p.2 ++ [DnsEffect.openSocket f, DnsEffect.closeFd f])
    else
      ({ s2 with running := true, taskLive := true },
        p.2 ++ [DnsEffect.openSocket f, DnsEffect.bindPort f, DnsEffect.spawnTask])

/-- Operations a client can perform on a DnsServer. -/
inductive DnsOp where
  | opStart (gw : List Nat) (sockOk bindOk : Bool)
  | opStop
deriving Repr, DecidableEq

/-- Applies one operation. -/
def dnsApply (s : DnsState) : DnsOp → DnsState × List DnsEffect
  | DnsOp.opStart gw a b => dnsStart s gw a b
  | DnsOp.opStop => dnsStop s

/-- Effect trace of a sequence of operations. -/
def dnsTrace (s : DnsState) : List DnsOp → List DnsEffect
  | [] => []
  | op :: ops => (dnsApply s op).2 ++ dnsTrace (dnsApply s op).1 ops

/-- Net change an effect makes to the number of open sockets. -/
def effectDelta : DnsEffect → Int
  | DnsEffect.openSocket _ => 1
  | DnsEffect.closeFd _ => -1
  | _ => 0

/-- Net number of sockets opened minus closed over an effect list. -/
def openBalance : List DnsEffect → Int
  | [] => 0
  | e :: es => effectDelta e + openBalance es

/-- Largest open-socket balance reached over any prefix of an effect list. -/
def prefixPeak : List DnsEffect → Int
  | [] => 0
  | e :: es => max 0 (effectDelta e + prefixPeak es)

/-- Number of sockets the state holds open. -/
def openCount (s : DnsState) : Int := if s.fd.isSome then 1 else 0

/-- A freshly constructed DnsServer: not running, no socket, no task. -/
def dnsInit : DnsState :=
  { running := false, fd := none, taskLive := false, nextFd := 3, gateway := [] }

/-- Reachable-state invariant: when not running, no socket is held. -/
def dnsInv (s : DnsState) : Prop := s.running = false → s.fd = none

lemma openBalance_append (a b : List DnsEffect) :
    openBalance (a ++ b) = openBalance a + openBalance b := by
  induction a with
  | nil => simp [openBalance]
  | cons e es ih => simp [openBalance, ih]; ring

lemma openBalance_take_le_peak (l : List DnsEffect) :
    ∀ k : Nat, openBalance (l.take k) ≤ prefixPeak l := by
  induction l with
  | nil => intro k; simp [openBalance, prefixPeak]
  | cons e es ih =>
    intro k
    cases k with
    | zero =>
      simp only [List.take_zero, openBalance, prefixPeak]
      exact le_max_left 0 _
    | succ m =>
      simp only [List.take_succ_cons, openBalance, prefixPeak]
      calc effectDelta e + openBalance (es.take m)
          ≤ effectDelta e + prefixPeak es := by
            have := ih m; omega
        _ ≤ max 0 (effectDelta e + prefixPeak es) := le_max_right 0 _

lemma dnsApply_step (s : DnsState) (op : DnsOp) (hinv : dnsInv s) :
    openCount s + prefixPeak (dnsApply s op).2 ≤ 1 ∧
    dnsInv (dnsApply s op).1 ∧
    openCount (dnsApply s op).1 = openCount s + openBalance (dnsApply s op).2 := by
  cases op with
  | opStop =>
    by_cases hr : s.running
    · cases hf : s.fd with
      | none =>
        refine ⟨?_, ?_, ?_⟩ <;>
          simp [dnsApply, dnsStop, hr, hf, openCount, prefixPeak, openBalance,
            effectDelta, dnsInv]
      | some n =>
        refine ⟨?_, ?_, ?_⟩ <;>
          simp [dnsApply, dnsStop, hr, hf, openCount, prefixPeak, openBalance,
            effectDelta, dnsInv]
    · have hf : s.fd = none := hinv (by simpa using hr)
      refine ⟨?_, ?_, ?_⟩ <;>
        simp [dnsApply, dnsStop, hr, hf, openCount, prefixPeak, openBalance,
          effectDelta, dnsInv]
  | opStart gw a b =>
    by_cases hr : s.running
    · cases hf : s.fd with
      | none =>
        cases a <;> cases b <;>
          (refine ⟨?_, ?_, ?_⟩ <;>
            simp [dnsApply, dnsStart, dnsStop, hr, hf, openCount, prefixPeak,
              openBalance, effectDelta, dnsInv, openBalance_append])
      | some n =>
        cases a <;> cases b <;>
          (refine ⟨?_, ?_, ?_⟩ <;>
            simp [dnsApply, dnsStart, dnsStop, hr, hf, openCount, prefixPeak,
              openBalance, effectDelta, dnsInv, openBalance_append])
    · have hf : s.fd = none := hinv (by simpa using hr)
      cases a <;> cases b <;>
        (refine ⟨?_, ?_, ?_⟩ <;>
          simp [dnsApply, dnsStart, dnsStop, hr, hf, openCount, prefixPeak,
            openBalance, effectDelta, dnsInv, openBalance_append])

lemma dnsTrace_bounded (ops : List DnsOp) :
    ∀ (s : DnsState), dnsInv s →
      ∀ k : Nat, openCount s + openBalance ((dnsTrace s ops).take k) ≤ 1 := by
  induction ops with
  | nil =>
    intro s hinv k
    have : openCount s ≤ 1 := by
      unfold openCount; split_ifs <;> omega
    simpa [dnsTrace, openBalance] using this
  | cons op ops ih =>
    intro s hinv k
    obtain ⟨hpk, hinv2, hbal⟩ := dnsApply_step s op hinv
    rw [dnsTrace, List.take_append_eq_append_take, openBalance_append]
    by_cases hk : k ≤ (dnsApply s op).2.length
    · have h0 : k - (dnsApply s op).2.length = 0 := by omega
      rw [h0]
      simp only [List.take_zero, openBalance]
      have := openBalance_take_le_peak (dnsApply s op).2 k
      omega
    · have hall : (dnsApply s op).2.take k = (dnsApply s op).2 :=
        List.take_of_length_le (by omega)
      rw [hall]
      have := ih (dnsApply s op).1 hinv2 (k - (dnsApply s op).2.length)
      omega

/-- C9: the DnsServer start/stop lifecycle never holds more than one socket and
signals the previous instance before replacing it. First conjunct: over every
sequence of Start/Stop operations from a fresh server, at every point of the
effect trace the number of sockets opened so far minus sockets closed is at most
one (so at most one bound socket and one receive loop exist at any time).
Second conjunct: whenever Start is called while running with an open socket, its
first two effects are clearing the running flag (signalling the receive task)
and closing the old socket — both strictly before any new socket is created. -/
theorem dns_start_stops_previous :
    (∀ (ops : List DnsOp) (k : Nat),
      openBalance ((dnsTrace dnsInit ops).take k) ≤ 1) ∧
    (∀ (s : DnsState) (gw : List Nat) (a b : Bool) (n : Nat),
      s.running = true → s.fd = some n →
      ((dnsStart s gw a b).2.take 2 = [DnsEffect.signalStop, DnsEffect.closeFd n])) := by
  constructor
  · intro ops k
    have h := dnsTrace_bounded ops dnsInit (fun _ => rfl) k
    simpa [openCount, dnsInit] using h
  · intro s gw a b n hr hf
    cases a <;> cases b <;> simp [dnsStart, dnsStop, hr, hf]

/-- Concrete running server holding socket 7, used as a witness state. -/
def dnsRunning7 : DnsState :=
  { running := true, fd := some 7, taskLive := true, nextFd := 8, gateway := [] }

/-- C9 witness: a concrete restart (Start twice in a row) keeps the open-socket
balance at most one at a checked trace point, and a concrete running server with
socket 7 emits stop-signal and close of 7 as the first two effects of Start. -/
theorem dns_start_stops_previous_witness :
    openBalance ((dnsTrace dnsInit
        [DnsOp.opStart [192, 168, 4, 1] true true,
          DnsOp.opStart [192, 168, 4, 1] true true]).take 5) ≤ 1 ∧
    (dnsRunning7.running = true) ∧
    ((dnsStart dnsRunning7 [10, 0, 0, 1] true true).2.take 2
      = [DnsEffect.signalStop, DnsEffect.closeFd 7]) :=
  ⟨dns_start_stops_previous.1
      [DnsOp.opStart [192, 168, 4, 1] true true,
        DnsOp.opStart [192, 168, 4, 1] true true] 5,
    rfl,
    dns_start_stops_previous.2 dnsRunning7 [10, 0, 0, 1] true true 7 rfl rfl⟩
